import Mathlib

/-!
Verification of the livekit-cli load-test core against its specification.

This file shallowly embeds the two source files of the repository:

* `src/pkg/provider/vp8looper.go` — the looping VP8/VP9 media source
  (`VPVideoLooper`, `NewVPVideoLooper`, `nextSample`).
* `src/cmd/lk/loadtest.go` — the `loadTest` command action (parameter
  assembly, suite mode, fairproc "coupled mode" validation).

Machine integers are modelled as `Nat`/`Int`; `time.Duration` values are
nanoseconds.  The external `ivfreader` package (pion) is modelled at its
interface: `ivfreader.NewWith` parses the 32-byte IVF file header and fails
iff the header is malformed (it does not inspect the frame count), and
`ParseNextFrame` yields the successive parseable frames, then `io.EOF` at a
clean end of the recording (or a non-EOF parse error when trailing malformed
bytes follow the parseable frames).
-/

/-! ## Data model: recorded IVF clips (interface of pion ivfreader) -/

/-- One parseable IVF frame: its payload bytes and the 64-bit timestamp from
its 12-byte frame header (`IVFFrameHeader.Timestamp`); the `Nat` models a
`uint64`, so values are below `2 ^ 64`. -/
structure IVFFrame where
  payload : List Nat
  timestamp : Nat
  deriving Repr, DecidableEq

/-- A recorded clip as seen through the `ivfreader` interface: whether the
32-byte IVF file header parses (`ivfreader.NewWith` succeeds iff it does —
it never inspects the frame count), the header's rational timebase, the
sequence of parseable frames, and whether malformed bytes trail the
parseable frames (in which case the parse after the last frame fails with a
non-EOF error instead of a clean `io.EOF`). -/
structure IVFClip where
  headerValid : Bool
  timebaseNumerator : Nat
  timebaseDenominator : Nat
  frames : List IVFFrame
  trailingGarbage : Bool
  deriving Repr, DecidableEq

/-- Errors surfaced by the looper, mirroring the Go error values that
`nextSample` can return: a malformed IVF file header (from
`ivfreader.NewWith`), a clean end of stream (`io.EOF` from
`ParseNextFrame`), or a mid-stream frame parse error. -/
inductive LoopErr where
  | headerErr
  | eof
  | frameErr
  deriving Repr, DecidableEq

/-- `ivfreader.ParseNextFrame` at cursor `i`: the `i`-th parseable frame,
`io.EOF` at a clean end, or a non-EOF error when trailing garbage follows
the parseable frames. -/
def parseNextFrame (clip : IVFClip) (i : Nat) : Except LoopErr IVFFrame :=
  match clip.frames.get? i with
  | some f => Except.ok f
  | none => if clip.trailingGarbage then Except.error LoopErr.frameErr
            else Except.error LoopErr.eof

/-! ## VPVideoLooper (src/pkg/provider/vp8looper.go) -/

/-- `media.Sample` as observed by the caller of `NextSample`: the frame
payload (`sample.Data`) and the output duration in nanoseconds
(`sample.Duration`). -/
structure MediaSample where
  data : List Nat
  duration : Nat
  deriving Repr, DecidableEq

/-- The `VPVideoLooper` struct.  `reader` is the `ivfreader.IVFReader`
field: `none` models the nil reader, `some i` a live reader whose next
`ParseNextFrame` returns frame `i`.  `ivfTimebase` keeps the
numerator/denominator pair whose quotient the Go code stores as a
`float64`; it feeds only the dead duration computation (overwritten before
return), so the exact float value is observable in no returned field. -/
structure VPVideoLooper where
  buffer : IVFClip
  frameDuration : Nat
  reader : Option Nat
  ivfTimebase : Nat × Nat
  lastTimestamp : Nat
  isVp9Encoding : Bool
  deriving Repr, DecidableEq

/-- `NewVPVideoLooper`: copies the input into `buffer` and sets
`frameDuration = time.Second / time.Duration(spec.fps)` (integer division
of nanoseconds, as in Go).  The zero-valued fields (`reader = nil`,
`ivfTimebase = 0`, `lastTimestamp = 0`) are Go's zero values. -/
def NewVPVideoLooper (clip : IVFClip) (fps : Nat) (isVp9 : Bool) : VPVideoLooper :=
  { buffer := clip
    frameDuration := 1000000000 / fps
    reader := none
    ivfTimebase := (0, 0)
    lastTimestamp := 0
    isVp9Encoding := isVp9 }

/-- Lines 84–93 of `nextSample`: when `l.reader == nil`, run
`ivfreader.NewWith` on the buffer; on success install a fresh reader at
frame 0 and store the header timebase, otherwise return the header error. -/
def openReader (l : VPVideoLooper) : Except LoopErr VPVideoLooper :=
  match l.reader with
  | some _ => Except.ok l
  | none =>
    if l.buffer.headerValid then
      Except.ok { l with
        reader := some 0
        ivfTimebase := (l.buffer.timebaseNumerator, l.buffer.timebaseDenominator) }
    else Except.error LoopErr.headerErr

/-- 2^64, the modulus of Go's `uint64` arithmetic in
`delta := header.Timestamp - l.lastTimestamp`. -/
def U64 : Nat := 2 ^ 64

/-- The duration the Go code first assigns to `sample.Duration`
(`time.Duration(l.ivfTimebase*float64(delta)*1000) * time.Millisecond`),
modelled with exact rational arithmetic truncated to an integer number of
milliseconds then scaled to nanoseconds.  This value is dead in the source:
it is overwritten by `l.frameDuration` before the sample is returned, so no
caller can observe it (or any float-rounding deviation of this model). -/
def nativeDurationNs (tb : Nat × Nat) (delta : Nat) : Nat :=
  (tb.1 * delta * 1000 / tb.2) * 1000000

/-- `l.reader = l1.reader = nil` before the recursive retry of `nextSample`. -/
def resetReader (l : VPVideoLooper) : VPVideoLooper := { l with reader := none }

/-- `VPVideoLooper.nextSample(rewindEOF bool)`, lines 82–110: lazily open
the reader, parse the next frame; on `io.EOF` with `rewindEOF` set, nil the
reader and retry once with `rewindEOF = false`; on success assign the dead
native duration, record `lastTimestamp`, overwrite the duration with the
fixed `frameDuration`, and return the sample together with the mutated
receiver state. -/
def nextSample (rewindEOF : Bool) (l : VPVideoLooper) :
    Except LoopErr (MediaSample × VPVideoLooper) :=
  match openReader l with
  | Except.error e => Except.error e
  | Except.ok l1 =>
    let i := l1.reader.getD 0
    match parseNextFrame l1.buffer i with
    | Except.error LoopErr.eof =>
      match rewindEOF with
      | true => nextSample false (resetReader l1)
      | false => Except.error LoopErr.eof
    | Except.error e => Except.error e
    | Except.ok f =>
      let delta := (f.timestamp + U64 - l1.lastTimestamp) % U64
      let sample0 : MediaSample :=
        { data := f.payload
          duration := nativeDurationNs l1.ivfTimebase delta }
      let l2 := { l1 with reader := some (i + 1), lastTimestamp := f.timestamp }
      Except.ok ({ sample0 with duration := l2.frameDuration }, l2)
termination_by rewindEOF.toNat
decreasing_by decide

/-- `NextSample`: the public pull, always called with `rewindEOF = true`. -/
def NextSample (l : VPVideoLooper) : Except LoopErr (MediaSample × VPVideoLooper) :=
  nextSample true l

/-- The result of the `n`-th (0-indexed) pull in a run of successive
`NextSample` calls threading the looper state, stopping at the first
error. -/
def pullResult : Nat → VPVideoLooper → Except LoopErr (MediaSample × VPVideoLooper)
  | 0, l => NextSample l
  | n + 1, l =>
    match NextSample l with
    | Except.ok (_, l') => pullResult n l'
    | Except.error e => Except.error e

/-- The looper state after `n` successful pulls (`none` if any pull
errored). -/
def pullState : Nat → VPVideoLooper → Option VPVideoLooper
  | 0, l => some l
  | n + 1, l =>
    match NextSample l with
    | Except.ok (_, l') => pullState n l'
    | Except.error _ => none

/-! ## loadTest command (src/cmd/lk/loadtest.go) -/

/-- `loadtester.TesterParams` as filled in by `loadTest`: project
credentials from `loadProjectDetails`, the room flag, the identity
pre-fix flag, and the layout string (resolved by
`loadtester.LayoutFromString`, which lives outside `src/`; no claim
observes the resolved value, so the raw flag string is kept). -/
structure TesterParams where
  URL : String
  APIKey : String
  APISecret : String
  Room : String
  IdentityPre : String
  Layout : String
  deriving Repr, DecidableEq

/-- `loadtester.Params` as assembled by `loadTest`.  Durations are
nanoseconds in an `Int` (Go `time.Duration` is an `int64`); the fairproc
flags are Go `int`s whose sentinel "unset" value is `-1`; `NumPerSecond`
is a `float64` flag modelled as a rational (no claim consumes it).  The
field name `FairprocConfigWebHieght` preserves the source's spelling. -/
structure Params where
  VideoResolution : String
  VideoCodec : String
  Duration : Int
  NumPerSecond : Rat
  Simulcast : Bool
  SimulateSpeakers : Bool
  FairprocConfigWebWidth : Int
  FairprocConfigWebHieght : Int
  FairprocConfigWebBitrate : Int
  FairprocConfigScreenWidth : Int
  FairprocConfigScreenHeight : Int
  FairprocConfigScreenBitrate : Int
  FairprocAudioBitrate : Int
  IsFairproc : Bool
  VideoPublishers : Int
  AudioPublishers : Int
  Subscribers : Int
  tester : TesterParams
  deriving Repr, DecidableEq

/-- The flag values read by `loadTest` (after `loadProjectDetails` has
succeeded, whose result supplies `URL`/`APIKey`/`APISecret`). -/
structure LoadTestCmd where
  videoResolution : String
  videoCodec : String
  duration : Int
  numPerSecond : Rat
  noSimulcast : Bool
  simulateSpeakers : Bool
  fairprocConfigWebWidth : Int
  fairprocConfigWebHeight : Int
  fairprocConfigWebBitrate : Int
  fairprocConfigScreenWidth : Int
  fairprocConfigScreenHeight : Int
  fairprocConfigScreenBitrate : Int
  fairprocConfigAudioBitrate : Int
  fairprocRooms : Bool
  videoPublishers : Int
  audioPublishers : Int
  subscribers : Int
  runAll : Bool
  room : String
  identityPre : String
  layout : String
  url : String
  apiKey : String
  apiSecret : String
  deriving Repr, DecidableEq

/-- How the `loadTest` action terminates: `RunSuite` invoked on a load test
built from `p`, `Run` invoked on a load test built from `p`, or an error
returned before `loadtester.NewLoadTest` is ever called (the only error
the modelled region can produce is the fairproc validation error). -/
inductive RunOutcome where
  | suiteRun (p : Params)
  | run (p : Params)
  | configError (msg : String)
  deriving Repr, DecidableEq

/-- One second in nanoseconds (`time.Second`). -/
def goSecond : Int := 1000000000

/-- The `params := loadtester.Params{...}` literal of `loadTest` (lines
155–178): publisher/subscriber counts are not part of the literal and stay
at Go's zero value. -/
def initialParams (cmd : LoadTestCmd) : Params :=
  { VideoResolution := cmd.videoResolution
    VideoCodec := cmd.videoCodec
    Duration := cmd.duration
    NumPerSecond := cmd.numPerSecond
    Simulcast := !cmd.noSimulcast
    SimulateSpeakers := cmd.simulateSpeakers
    FairprocConfigWebWidth := cmd.fairprocConfigWebWidth
    FairprocConfigWebHieght := cmd.fairprocConfigWebHeight
    FairprocConfigWebBitrate := cmd.fairprocConfigWebBitrate
    FairprocConfigScreenWidth := cmd.fairprocConfigScreenWidth
    FairprocConfigScreenHeight := cmd.fairprocConfigScreenHeight
    FairprocConfigScreenBitrate := cmd.fairprocConfigScreenBitrate
    FairprocAudioBitrate := cmd.fairprocConfigAudioBitrate
    IsFairproc := cmd.fairprocRooms
    VideoPublishers := 0
    AudioPublishers := 0
    Subscribers := 0
    tester :=
      { URL := cmd.url
        APIKey := cmd.apiKey
        APISecret := cmd.apiSecret
        Room := cmd.room
        IdentityPre := cmd.identityPre
        Layout := cmd.layout } }

/-- The `loadTest` action from the point where `params` is assembled
(lines 155–204): suite mode defaults a zero duration to 15 s and runs the
suite; otherwise the publisher/subscriber flags are read, the fairproc
("coupled") validation runs when `IsFairproc` is set — returning the
`fairproc missing required files` error if any of the six checked
parameters equals `-1`, else forcing 2 audio / 3 video publishers — and
the load test is built and run. -/
def loadTest (cmd : LoadTestCmd) : RunOutcome :=
  let params := initialParams cmd
  if cmd.runAll then
    let params :=
      if params.Duration = 0 then { params with Duration := 15 * goSecond } else params
    RunOutcome.suiteRun params
  else
    let params := { params with
      VideoPublishers := cmd.videoPublishers
      AudioPublishers := cmd.audioPublishers
      Subscribers := cmd.subscribers }
    if params.IsFairproc then
      if params.FairprocAudioBitrate = -1 ∨ params.FairprocConfigScreenHeight = -1 ∨
          params.FairprocConfigScreenWidth = -1 ∨ params.FairprocConfigWebBitrate = -1 ∨
          params.FairprocConfigWebHieght = -1 ∨ params.FairprocConfigWebWidth = -1 then
        RunOutcome.configError "fairproc missing required files"
      else
        RunOutcome.run { params with AudioPublishers := 2, VideoPublishers := 3 }
    else
      RunOutcome.run params

/-! ## Derived definitions and test vectors -/

/-- The body of `nextSample` with the end-of-stream retry disabled (the
`rewindEOF = false` behavior of lines 82–110). -/
def nextSampleOnce (l : VPVideoLooper) : Except LoopErr (MediaSample × VPVideoLooper) :=
  match openReader l with
  | Except.error e => Except.error e
  | Except.ok l1 =>
    let i := l1.reader.getD 0
    match parseNextFrame l1.buffer i with
    | Except.error LoopErr.eof => Except.error LoopErr.eof
    | Except.error e => Except.error e
    | Except.ok f =>
      let delta := (f.timestamp + U64 - l1.lastTimestamp) % U64
      let sample0 : MediaSample :=
        { data := f.payload
          duration := nativeDurationNs l1.ivfTimebase delta }
      let l2 := { l1 with reader := some (i + 1), lastTimestamp := f.timestamp }
      Except.ok ({ sample0 with duration := l2.frameDuration }, l2)

/-- The looping invariant: the looper reads clip `clip` with fixed frame
duration `fd`, and its cursor corresponds to logical position `p` in the
cyclic frame order — `none` (not yet opened) is position 0, and a live
cursor `some j` with `j ≤ k` is position `j % k` (`some k` is "just past
the end", about to rewind). -/
def LoopsAt (clip : IVFClip) (fd p : Nat) (l : VPVideoLooper) : Prop :=
  l.buffer = clip ∧ l.frameDuration = fd ∧
  ((l.reader = none ∧ p = 0) ∨
   (∃ j, l.reader = some j ∧ j ≤ clip.frames.length ∧ p = j % clip.frames.length))

/-! ## Concrete clips used as test vectors -/

/-- A two-frame clip (payloads `[10]`, `[20]`; clip timestamps 0 and 3000)
with a valid header and a 1/30 timebase. -/
def tsClip : IVFClip :=
  { headerValid := true
    timebaseNumerator := 1
    timebaseDenominator := 30
    frames := [{ payload := [10], timestamp := 0 },
               { payload := [20], timestamp := 3000 }]
    trailingGarbage := false }

/-- A fresh looper over `tsClip` at 30 fps. -/
def tsLooper : VPVideoLooper := NewVPVideoLooper tsClip 30 false

/-- `tsLooper` after its first pull (also after its third pull, which
rewinds): cursor at frame 1, `lastTimestamp` = 0. -/
def tsL1 : VPVideoLooper :=
  { buffer := tsClip
    frameDuration := 33333333
    reader := some 1
    ivfTimebase := (1, 30)
    lastTimestamp := 0
    isVp9Encoding := false }

/-- `tsLooper` after its second pull: cursor past the last frame,
`lastTimestamp` = 3000. -/
def tsL2 : VPVideoLooper := { tsL1 with reader := some 2, lastTimestamp := 3000 }

/-- A clip with a valid header, a 1/30 timebase and zero frames. -/
def zeroClip : IVFClip :=
  { headerValid := true
    timebaseNumerator := 1
    timebaseDenominator := 30
    frames := []
    trailingGarbage := false }

/-- A fresh looper over the zero-frame clip at 30 fps. -/
def zeroLooper : VPVideoLooper := NewVPVideoLooper zeroClip 30 false

/-- Decidable equality for `Except` results, used to evaluate the model on
concrete clips. -/
instance {e a : Type} [DecidableEq e] [DecidableEq a] : DecidableEq (Except e a) := fun x y =>
  match x, y with
  | Except.error e1, Except.error e2 =>
    if h : e1 = e2 then isTrue (by rw [h]) else isFalse (fun hc => h (by injection hc))
  | Except.ok x1, Except.ok y1 =>
    if h : x1 = y1 then isTrue (by rw [h]) else isFalse (fun hc => h (by injection hc))
  | Except.error _, Except.ok _ => isFalse (fun hc => Except.noConfusion hc)
  | Except.ok _, Except.error _ => isFalse (fun hc => Except.noConfusion hc)

/-- The disjunction tested by the fairproc validation in `loadTest` (lines
194–195): the six parameters the code actually compares against the `-1`
sentinel.  Screen bitrate is not among them. -/
def fairprocMissing (cmd : LoadTestCmd) : Prop :=
  cmd.fairprocConfigAudioBitrate = -1 ∨ cmd.fairprocConfigScreenHeight = -1 ∨
  cmd.fairprocConfigScreenWidth = -1 ∨ cmd.fairprocConfigWebBitrate = -1 ∨
  cmd.fairprocConfigWebHeight = -1 ∨ cmd.fairprocConfigWebWidth = -1

instance (cmd : LoadTestCmd) : Decidable (fairprocMissing cmd) := by
  unfold fairprocMissing; infer_instance

/-- A command line with fairproc (coupled) mode requested and exactly the
four sub-parameters named by claim C3 supplied (web width/height/bitrate
and screen bitrate); every other flag keeps its declared default, so
screen width and screen height stay at the `-1` sentinel and the audio
bitrate at its default `16`. -/
def c3Cmd : LoadTestCmd :=
  { videoResolution := "high"
    videoCodec := ""
    duration := 0
    numPerSecond := 5
    noSimulcast := false
    simulateSpeakers := false
    fairprocConfigWebWidth := 300
    fairprocConfigWebHeight := 200
    fairprocConfigWebBitrate := 29
    fairprocConfigScreenWidth := -1
    fairprocConfigScreenHeight := -1
    fairprocConfigScreenBitrate := 50
    fairprocConfigAudioBitrate := 16
    fairprocRooms := true
    videoPublishers := 0
    audioPublishers := 0
    subscribers := 0
    runAll := false
    room := "load-test"
    identityPre := ""
    layout := "speaker"
    url := ""
    apiKey := ""
    apiSecret := "" }

/-- `c3Cmd` with screen width and screen height also supplied: all six
checked fairproc parameters are away from the `-1` sentinel. -/
def c4Cmd : LoadTestCmd :=
  { c3Cmd with
    fairprocConfigScreenWidth := 300
    fairprocConfigScreenHeight := 200
    videoPublishers := 9
    audioPublishers := 7
    subscribers := 4 }

/-- A suite-mode command line: `c3Cmd` with `run-all` set (coupled mode is
still requested and four of the six checked parameters sit at `-1`). -/
def c9Cmd : LoadTestCmd := { c3Cmd with runAll := true }

/-! ## Theorems: loadTest (claims C3, C4, C8, C9, C10) -/

/-- C3, counterexample: with coupled mode requested and exactly the four
sub-parameters of the claim explicitly supplied (web width, web height,
web bitrate, screen bitrate all ≠ -1), validation does NOT pass: `loadTest`
still fails with the configuration error, because the code also requires
screen width and screen height (left here at their `-1` defaults).  This
refutes "with exactly those four explicitly supplied, validation passes
and the run proceeds". -/
theorem c3_counterexample :
    loadTest c3Cmd = RunOutcome.configError "fairproc missing required files" ∧
    c3Cmd.fairprocConfigWebWidth ≠ -1 ∧ c3Cmd.fairprocConfigWebHeight ≠ -1 ∧
    c3Cmd.fairprocConfigWebBitrate ≠ -1 ∧ c3Cmd.fairprocConfigScreenBitrate ≠ -1 ∧
    c3Cmd.fairprocRooms = true ∧ c3Cmd.runAll = false := by
  refine ⟨rfl, ?_, ?_, ?_, ?_, rfl, rfl⟩ <;> decide

/-- C3, amended: outside suite mode with coupled (fairproc) mode requested,
the run fails fast with the configuration error iff at least one of the SIX
parameters the code checks (audio bitrate, screen height, screen width, web
bitrate, web height, web width) equals the `-1` sentinel — screen bitrate
is never checked — and when none of the six is `-1`, validation passes and
the run proceeds. -/
theorem loadTest_fairproc_validation (cmd : LoadTestCmd)
    (hsuite : cmd.runAll = false) (hfp : cmd.fairprocRooms = true) :
    (loadTest cmd = RunOutcome.configError "fairproc missing required files" ↔
      fairprocMissing cmd) ∧
    (¬ fairprocMissing cmd → ∃ p, loadTest cmd = RunOutcome.run p) := by
  by_cases hm : fairprocMissing cmd
  · constructor
    · simp only [loadTest, initialParams, hsuite, hfp, if_false, if_true, Bool.false_eq_true]
      rw [if_pos (by exact hm)]
      simp [hm]
    · intro hc; exact absurd hm hc
  · constructor
    · simp only [loadTest, initialParams, hsuite, hfp, if_false, if_true, Bool.false_eq_true]
      rw [if_neg (by exact hm)]
      simp [hm]
    · intro _
      refine ⟨{ initialParams cmd with
                VideoPublishers := 3, AudioPublishers := 2,
                Subscribers := cmd.subscribers }, ?_⟩
      simp only [loadTest, initialParams, hsuite, hfp, if_false, if_true, Bool.false_eq_true]
      rw [if_neg (by exact hm)]

/-- C3, witness: the amended validation theorem instantiated at `c3Cmd`. -/
theorem loadTest_fairproc_validation_witness :
    (loadTest c3Cmd = RunOutcome.configError "fairproc missing required files" ↔
      fairprocMissing c3Cmd) ∧
    (¬ fairprocMissing c3Cmd → ∃ p, loadTest c3Cmd = RunOutcome.run p) :=
  loadTest_fairproc_validation c3Cmd rfl rfl

/-- C4: whenever coupled (fairproc) mode is requested outside suite mode
and the sentinel validation passes, the params handed to the load test have
exactly 2 audio publishers and 3 video publishers, regardless of the
explicitly requested `video-publishers` / `audio-publishers` flag values
(the theorem quantifies over all such flag values through `cmd`). -/
theorem loadTest_coupled_overrides (cmd : LoadTestCmd)
    (hsuite : cmd.runAll = false) (hfp : cmd.fairprocRooms = true)
    (hok : ¬ fairprocMissing cmd) :
    ∃ p, loadTest cmd = RunOutcome.run p ∧
      p.AudioPublishers = 2 ∧ p.VideoPublishers = 3 := by
  refine ⟨{ initialParams cmd with
            VideoPublishers := 3, AudioPublishers := 2,
            Subscribers := cmd.subscribers }, ?_, rfl, rfl⟩
  simp only [loadTest, initialParams, hsuite, hfp, if_false, if_true, Bool.false_eq_true]
  rw [if_neg (by exact hok)]

/-- C4, witness: at `c4Cmd` (which explicitly requests 9 video and 7 audio
publishers) the resulting run params carry 2 audio / 3 video publishers. -/
theorem loadTest_coupled_overrides_witness :
    ∃ p, loadTest c4Cmd = RunOutcome.run p ∧
      p.AudioPublishers = 2 ∧ p.VideoPublishers = 3 :=
  loadTest_coupled_overrides c4Cmd rfl rfl (by decide)

/-- C8: when the fairproc validation fails, `loadTest` returns the
configuration error; in particular the outcome is neither `run` nor
`suiteRun`, i.e. `loadtester.NewLoadTest` is never reached — no load test
object is constructed and nothing is run (line 196 returns before line
203). -/
theorem loadTest_error_before_run (cmd : LoadTestCmd)
    (hsuite : cmd.runAll = false) (hfp : cmd.fairprocRooms = true)
    (hmiss : fairprocMissing cmd) :
    loadTest cmd = RunOutcome.configError "fairproc missing required files" ∧
    (∀ p, loadTest cmd ≠ RunOutcome.run p) ∧
    (∀ p, loadTest cmd ≠ RunOutcome.suiteRun p) := by
  have h : loadTest cmd = RunOutcome.configError "fairproc missing required files" := by
    simp only [loadTest, initialParams, hsuite, hfp, if_false, if_true, Bool.false_eq_true]
    rw [if_pos (by exact hmiss)]
  exact ⟨h, fun p => by simp [h], fun p => by simp [h]⟩

/-- C8, witness: instantiated at `c3Cmd`, whose screen width/height sit at
the sentinel. -/
theorem loadTest_error_before_run_witness :
    loadTest c3Cmd = RunOutcome.configError "fairproc missing required files" ∧
    (∀ p, loadTest c3Cmd ≠ RunOutcome.run p) ∧
    (∀ p, loadTest c3Cmd ≠ RunOutcome.suiteRun p) :=
  loadTest_error_before_run c3Cmd rfl rfl (by decide)

/-- C9: in suite mode (`run-all`), the outcome is the suite run and is
unchanged by any values of the `video-publishers`, `audio-publishers` and
`subscribers` flags (they are never read); no configuration error is
produced (the fairproc validation is skipped even when coupled mode is
requested with everything unset, since the theorem covers all such `cmd`);
and the suite params keep the publisher/subscriber counts at their zero
values. -/
theorem loadTest_suite_ignores_counts (cmd : LoadTestCmd) (hall : cmd.runAll = true) :
    (∀ v a s, loadTest { cmd with
        videoPublishers := v, audioPublishers := a, subscribers := s } = loadTest cmd) ∧
    (∀ msg, loadTest cmd ≠ RunOutcome.configError msg) ∧
    (∃ p, loadTest cmd = RunOutcome.suiteRun p ∧
      p.VideoPublishers = 0 ∧ p.AudioPublishers = 0 ∧ p.Subscribers = 0) := by
  have hsuite : loadTest cmd = RunOutcome.suiteRun
      (if (initialParams cmd).Duration = 0 then
        { initialParams cmd with Duration := 15 * goSecond }
      else initialParams cmd) := by
    simp only [loadTest, hall, if_true]
  refine ⟨fun v a s => ?_, fun msg => ?_, ?_⟩
  · have hmod : ({ cmd with
        videoPublishers := v, audioPublishers := a, subscribers := s } :
          LoadTestCmd).runAll = true := hall
    simp only [loadTest, hall, hmod, if_true]
    rfl
  · rw [hsuite]
    intro hc
    cases hc
  · rw [hsuite]
    by_cases h0 : (initialParams cmd).Duration = 0
    · exact ⟨_, by rw [if_pos h0], rfl, rfl, rfl⟩
    · exact ⟨_, by rw [if_neg h0], rfl, rfl, rfl⟩

/-- C9, witness: the suite theorem instantiated at `c9Cmd`. -/
theorem loadTest_suite_ignores_counts_witness :
    (∀ v a s, loadTest { c9Cmd with
        videoPublishers := v, audioPublishers := a, subscribers := s } = loadTest c9Cmd) ∧
    (∀ msg, loadTest c9Cmd ≠ RunOutcome.configError msg) ∧
    (∃ p, loadTest c9Cmd = RunOutcome.suiteRun p ∧
      p.VideoPublishers = 0 ∧ p.AudioPublishers = 0 ∧ p.Subscribers = 0) :=
  loadTest_suite_ignores_counts c9Cmd rfl

/-- C10: in suite mode, a configured duration of zero is replaced by 15
seconds before the suite is executed, and a nonzero configured duration is
kept unchanged. -/
theorem loadTest_suite_duration_default (cmd : LoadTestCmd) (hall : cmd.runAll = true) :
    (cmd.duration = 0 → ∃ p, loadTest cmd = RunOutcome.suiteRun p ∧
      p.Duration = 15 * goSecond) ∧
    (cmd.duration ≠ 0 → ∃ p, loadTest cmd = RunOutcome.suiteRun p ∧
      p.Duration = cmd.duration) := by
  constructor
  · intro h0
    refine ⟨{ initialParams cmd with Duration := 15 * goSecond }, ?_, rfl⟩
    simp only [loadTest, hall, if_true]
    rw [if_pos (by exact h0)]
  · intro h0
    refine ⟨initialParams cmd, ?_, rfl⟩
    simp only [loadTest, hall, if_true]
    rw [if_neg (by exact h0)]

/-- C10, witness: instantiated at `c9Cmd`, whose configured duration is 0;
the resulting suite params carry a 15-second duration. -/
theorem loadTest_suite_duration_default_witness :
    (c9Cmd.duration = 0 → ∃ p, loadTest c9Cmd = RunOutcome.suiteRun p ∧
      p.Duration = 15 * goSecond) ∧
    (c9Cmd.duration ≠ 0 → ∃ p, loadTest c9Cmd = RunOutcome.suiteRun p ∧
      p.Duration = c9Cmd.duration) :=
  loadTest_suite_duration_default c9Cmd rfl

/-! ## Unrolled characterization of nextSample

`nextSample`'s only recursive call passes `rewindEOF = false`, whose
end-of-stream branch returns the error, so the recursion is bounded at one
retry.  `nextSampleOnce` is the non-retrying instance as a plain
structural definition; the lemmas below prove that `nextSample` is exactly
`nextSampleOnce` with at most one reopen-and-retry spliced in. -/

theorem nextSample_false_eq (l : VPVideoLooper) :
    nextSample false l = nextSampleOnce l := by
  rw [nextSample, nextSampleOnce]

theorem openReader_some (l : VPVideoLooper) (j : Nat) (hr : l.reader = some j) :
    openReader l = Except.ok l := by
  rw [openReader, hr]

theorem openReader_none (l : VPVideoLooper) (hr : l.reader = none)
    (hv : l.buffer.headerValid = true) :
    openReader l = Except.ok { l with
      reader := some 0
      ivfTimebase := (l.buffer.timebaseNumerator, l.buffer.timebaseDenominator) } := by
  rw [openReader, hr]
  simp [hv]

/-- After a successful open, only `reader` and `ivfTimebase` can differ
from the pre-open state. -/
theorem openReader_preserves (l l1 : VPVideoLooper) (h : openReader l = Except.ok l1) :
    l1.buffer = l.buffer ∧ l1.frameDuration = l.frameDuration ∧
    l1.lastTimestamp = l.lastTimestamp ∧ l1.isVp9Encoding = l.isVp9Encoding := by
  rw [openReader] at h
  cases hr : l.reader with
  | some j =>
    rw [hr] at h
    cases h
    exact ⟨rfl, rfl, rfl, rfl⟩
  | none =>
    rw [hr] at h
    by_cases hv : l.buffer.headerValid = true
    · simp only [hv, if_true] at h
      cases h
      exact ⟨rfl, rfl, rfl, rfl⟩
    · simp only [Bool.not_eq_true] at hv
      simp [hv] at h

/-- `nextSampleOnce` does not depend on the stale `ivfTimebase` of a state
whose reader is nil: reopening overwrites it from the clip header. -/
theorem nextSampleOnce_reset_of_open (l l1 : VPVideoLooper)
    (h : openReader l = Except.ok l1) :
    nextSampleOnce (resetReader l1) = nextSampleOnce (resetReader l) := by
  rw [openReader] at h
  cases hr : l.reader with
  | some j =>
    rw [hr] at h
    cases h
    rfl
  | none =>
    rw [hr] at h
    by_cases hv : l.buffer.headerValid = true
    · simp only [hv, if_true] at h
      cases h
      rw [nextSampleOnce, nextSampleOnce, resetReader, resetReader]
      simp only [openReader, hv, if_true]
    · simp only [Bool.not_eq_true] at hv
      simp [hv] at h

/-- The only error `ivfreader.NewWith` can surface is the malformed-header
error. -/
theorem openReader_error (l : VPVideoLooper) (e : LoopErr)
    (h : openReader l = Except.error e) : e = LoopErr.headerErr := by
  rw [openReader] at h
  cases hr : l.reader with
  | some j => rw [hr] at h; cases h
  | none =>
    rw [hr] at h
    by_cases hv : l.buffer.headerValid = true
    · simp [hv] at h
    · simp only [Bool.not_eq_true] at hv
      simp only [hv, Bool.false_eq_true, if_false] at h
      cases h
      rfl

theorem nextSample_true_eq (l : VPVideoLooper) :
    nextSample true l =
      match nextSampleOnce l with
      | Except.error LoopErr.eof => nextSampleOnce (resetReader l)
      | r => r := by
  have honce : ∀ m : VPVideoLooper, nextSampleOnce m =
      match openReader m with
      | Except.error e => Except.error e
      | Except.ok l1 =>
        match parseNextFrame l1.buffer (l1.reader.getD 0) with
        | Except.error LoopErr.eof => Except.error LoopErr.eof
        | Except.error e => Except.error e
        | Except.ok f =>
          Except.ok ({ data := f.payload, duration := l1.frameDuration },
            { l1 with reader := some (l1.reader.getD 0 + 1),
                      lastTimestamp := f.timestamp }) := fun m => rfl
  have htrue : nextSample true l =
      match openReader l with
      | Except.error e => Except.error e
      | Except.ok l1 =>
        match parseNextFrame l1.buffer (l1.reader.getD 0) with
        | Except.error LoopErr.eof => nextSample false (resetReader l1)
        | Except.error e => Except.error e
        | Except.ok f =>
          Except.ok ({ data := f.payload, duration := l1.frameDuration },
            { l1 with reader := some (l1.reader.getD 0 + 1),
                      lastTimestamp := f.timestamp }) := by
    rw [nextSample]
  rw [htrue, honce l]
  cases hopen : openReader l with
  | error e =>
    have he := openReader_error l e hopen
    subst he
    rfl
  | ok l1 =>
    dsimp only
    cases hp : parseNextFrame l1.buffer (l1.reader.getD 0) with
    | ok f => rfl
    | error e =>
      cases e with
      | eof =>
        show nextSample false (resetReader l1) = nextSampleOnce (resetReader l)
        rw [nextSample_false_eq]
        exact nextSampleOnce_reset_of_open l l1 hopen
      | headerErr => rfl
      | frameErr => rfl

/-- `nextSampleOnce` unfolded, with the let-bindings and the dead first
duration assignment reduced away (the final sample carries
`frameDuration`). -/
theorem nextSampleOnce_eq (m : VPVideoLooper) :
    nextSampleOnce m =
      match openReader m with
      | Except.error e => Except.error e
      | Except.ok l1 =>
        match parseNextFrame l1.buffer (l1.reader.getD 0) with
        | Except.error LoopErr.eof => Except.error LoopErr.eof
        | Except.error e => Except.error e
        | Except.ok f =>
          Except.ok ({ data := f.payload, duration := l1.frameDuration },
            { l1 with reader := some (l1.reader.getD 0 + 1),
                      lastTimestamp := f.timestamp }) := rfl

/-- A pull on a live reader pointing at an existing frame returns that
frame and advances the cursor. -/
theorem nextSampleOnce_pos (l : VPVideoLooper) (j : Nat) (f : IVFFrame)
    (hr : l.reader = some j) (hf : l.buffer.frames.get? j = some f) :
    nextSampleOnce l = Except.ok
      ({ data := f.payload, duration := l.frameDuration },
       { l with reader := some (j + 1), lastTimestamp := f.timestamp }) := by
  rw [nextSampleOnce_eq, openReader_some l j hr]
  dsimp only
  simp only [hr, Option.getD_some, parseNextFrame, hf]

/-- A pull on a nil reader over a clip with a valid header and a first
frame opens the reader and returns frame 0. -/
theorem nextSampleOnce_none (l : VPVideoLooper) (f : IVFFrame)
    (hr : l.reader = none) (hv : l.buffer.headerValid = true)
    (hf : l.buffer.frames.get? 0 = some f) :
    nextSampleOnce l = Except.ok
      ({ data := f.payload, duration := l.frameDuration },
       { l with reader := some 1,
                ivfTimebase := (l.buffer.timebaseNumerator, l.buffer.timebaseDenominator),
                lastTimestamp := f.timestamp }) := by
  rw [nextSampleOnce_eq, openReader_none l hr hv]
  dsimp only
  simp only [Option.getD_some, parseNextFrame, hf]

/-- A pull whose cursor has run past the parseable frames of a clip with
no trailing garbage yields the clean end-of-stream error. -/
theorem nextSampleOnce_eof (l l1 : VPVideoLooper)
    (hopen : openReader l = Except.ok l1)
    (hf : l1.buffer.frames.get? (l1.reader.getD 0) = none)
    (hg : l1.buffer.trailingGarbage = false) :
    nextSampleOnce l = Except.error LoopErr.eof := by
  rw [nextSampleOnce_eq, hopen]
  dsimp only
  simp only [parseNextFrame, hf, hg, Bool.false_eq_true, if_false]

/-- Inversion: any successful `nextSampleOnce` leaves the clip, the fixed
frame duration and the codec flag untouched, returns a sample whose
duration is the fixed frame duration and whose payload is some parseable
frame `j` of the clip, places the cursor at `j + 1`, and stores that
frame's clip timestamp as `lastTimestamp`. -/
theorem nextSampleOnce_ok_inv (l : VPVideoLooper) (s : MediaSample) (l' : VPVideoLooper)
    (h : nextSampleOnce l = Except.ok (s, l')) :
    l'.buffer = l.buffer ∧ l'.frameDuration = l.frameDuration ∧
    l'.isVp9Encoding = l.isVp9Encoding ∧ s.duration = l.frameDuration ∧
    ∃ j f, l.buffer.frames.get? j = some f ∧ l'.reader = some (j + 1) ∧
      s.data = f.payload ∧ l'.lastTimestamp = f.timestamp := by
  rw [nextSampleOnce_eq] at h
  cases hopen : openReader l with
  | error e => rw [hopen] at h; cases h
  | ok l1 =>
    rw [hopen] at h
    dsimp only at h
    obtain ⟨hb, hfd, hts, hvp⟩ := openReader_preserves l l1 hopen
    cases hp : parseNextFrame l1.buffer (l1.reader.getD 0) with
    | error e =>
      rw [hp] at h
      cases e <;> cases h
    | ok f =>
      rw [hp] at h
      dsimp only at h
      injection h with h
      injection h with hs hl
      subst hs hl
      refine ⟨hb, hfd, hvp, hfd, l1.reader.getD 0, f, ?_, rfl, rfl, rfl⟩
      rw [← hb]
      rw [parseNextFrame] at hp
      cases hq : l1.buffer.frames.get? (l1.reader.getD 0) with
      | some f2 =>
        rw [hq] at hp
        dsimp only at hp
        injection hp with hp
        rw [hp]
      | none =>
        rw [hq] at hp
        cases hgb : l1.buffer.trailingGarbage <;> simp [hgb] at hp

/-! ## Theorems: VPVideoLooper (claims C1, C2, C5, C6, C7) -/

/-- C7: `nextSample` terminates with bounded call depth — the retry
recursion is exactly one level deep.  (1) With `rewindEOF = false` it is
the non-retrying `nextSampleOnce`, whose end-of-stream branch returns the
error.  (2) With `rewindEOF = true` it is `nextSampleOnce` followed, only
on a clean end-of-stream, by one reopen-and-retry of the non-retrying
body.  (3) Hence a second consecutive end-of-stream returns the error
instead of retrying again. -/
theorem nextSample_one_retry :
    (∀ l, nextSample false l = nextSampleOnce l) ∧
    (∀ l, nextSample true l =
      match nextSampleOnce l with
      | Except.error LoopErr.eof => nextSampleOnce (resetReader l)
      | r => r) ∧
    (∀ l, nextSampleOnce l = Except.error LoopErr.eof →
      nextSampleOnce (resetReader l) = Except.error LoopErr.eof →
      nextSample true l = Except.error LoopErr.eof) :=
  ⟨nextSample_false_eq, nextSample_true_eq, fun l h1 h2 => by
    rw [nextSample_true_eq, h1]; exact h2⟩

/-- C7, witness: on the zero-frame clip both the first parse and the
post-rewind parse hit end-of-stream, and the call returns the error. -/
theorem nextSample_one_retry_witness :
    nextSampleOnce zeroLooper = Except.error LoopErr.eof ∧
    nextSampleOnce (resetReader zeroLooper) = Except.error LoopErr.eof ∧
    nextSample true zeroLooper = Except.error LoopErr.eof :=
  ⟨by decide, by decide,
   nextSample_one_retry.2.2 zeroLooper (by decide) (by decide)⟩

/-- C2: every successful `nextSample` returns a sample whose duration is
the looper's fixed `frameDuration` (never the value computed from the
clip's timestamp delta and native timebase, which is overwritten), and a
looper built by `NewVPVideoLooper` with frame rate `fps` has
`frameDuration` equal to one second (10^9 ns) divided by `fps`. -/
theorem nextSample_fixed_duration :
    (∀ (rewind : Bool) (l : VPVideoLooper) (s : MediaSample) (l' : VPVideoLooper),
      nextSample rewind l = Except.ok (s, l') → s.duration = l.frameDuration) ∧
    (∀ (clip : IVFClip) (fps : Nat) (isVp9 : Bool),
      (NewVPVideoLooper clip fps isVp9).frameDuration = 1000000000 / fps) := by
  constructor
  · intro rewind l s l' h
    cases rewind with
    | false =>
      rw [nextSample_false_eq] at h
      exact (nextSampleOnce_ok_inv l s l' h).2.2.2.1
    | true =>
      rw [nextSample_true_eq] at h
      cases h1 : nextSampleOnce l with
      | ok p =>
        rw [h1] at h
        dsimp only at h
        rw [h] at h1
        exact (nextSampleOnce_ok_inv l s l' h1).2.2.2.1
      | error e =>
        rw [h1] at h
        cases e with
        | eof =>
          dsimp only at h
          exact (nextSampleOnce_ok_inv (resetReader l) s l' h).2.2.2.1
        | headerErr => cases h
        | frameErr => cases h
  · intro clip fps isVp9
    rfl

/-- C2, witness: the first pull on `tsLooper` returns duration 33333333 ns
= 10^9 / 30, the fixed output duration, even though the dead native
computation at that step would give 0 ns (timebase still (0,0)). -/
theorem nextSample_fixed_duration_witness :
    nextSample true tsLooper = Except.ok ({ data := [10], duration := 33333333 }, tsL1) ∧
    ({ data := [10], duration := 33333333 } : MediaSample).duration = tsLooper.frameDuration ∧
    (NewVPVideoLooper tsClip 30 false).frameDuration = 1000000000 / 30 :=
  have hEq : nextSample true tsLooper =
      Except.ok ({ data := [10], duration := 33333333 }, tsL1) := by
    rw [nextSample_true_eq]; decide
  ⟨hEq, nextSample_fixed_duration.1 true tsLooper _ tsL1 hEq,
   nextSample_fixed_duration.2 tsClip 30 false⟩

/-- C6, counterexample: on the two-frame clip `tsClip` (clip timestamps 0
and 3000), the second successful pull stores `lastTimestamp = 3000`, and
the third pull — which crosses the loop-rewind boundary — stores
`lastTimestamp = 0 < 3000`.  The stored timestamp is therefore NOT
monotonically increasing across loop-rewind boundaries. -/
theorem c6_counterexample :
    NextSample tsLooper = Except.ok ({ data := [10], duration := 33333333 }, tsL1) ∧
    NextSample tsL1 = Except.ok ({ data := [20], duration := 33333333 }, tsL2) ∧
    NextSample tsL2 = Except.ok ({ data := [10], duration := 33333333 }, tsL1) ∧
    tsL2.lastTimestamp = 3000 ∧ tsL1.lastTimestamp = 0 ∧
    tsL1.lastTimestamp < tsL2.lastTimestamp := by
  refine ⟨?_, ?_, ?_, by decide, by decide, by decide⟩ <;>
    (rw [NextSample, nextSample_true_eq]; decide)

/-- C6, amended: each successful `nextSample` stores the returned frame's
clip timestamp in `lastTimestamp` (so the stored timestamp falls back to
the first frame's timestamp at a loop rewind and is not monotonic across
it), and beyond the parse cursor (`reader`) the call mutates only the
cached timebase and this timestamp: the clip buffer, the fixed frame
duration and the codec flag are unchanged. -/
theorem nextSample_state_change (rewind : Bool) (l : VPVideoLooper)
    (s : MediaSample) (l' : VPVideoLooper)
    (h : nextSample rewind l = Except.ok (s, l')) :
    l'.buffer = l.buffer ∧ l'.frameDuration = l.frameDuration ∧
    l'.isVp9Encoding = l.isVp9Encoding ∧
    ∃ j f, l.buffer.frames.get? j = some f ∧ l'.reader = some (j + 1) ∧
      s.data = f.payload ∧ l'.lastTimestamp = f.timestamp := by
  cases rewind with
  | false =>
    rw [nextSample_false_eq] at h
    have hinv := nextSampleOnce_ok_inv l s l' h
    exact ⟨hinv.1, hinv.2.1, hinv.2.2.1, hinv.2.2.2.2⟩
  | true =>
    rw [nextSample_true_eq] at h
    cases h1 : nextSampleOnce l with
    | ok p =>
      rw [h1] at h
      dsimp only at h
      rw [h] at h1
      have hinv := nextSampleOnce_ok_inv l s l' h1
      exact ⟨hinv.1, hinv.2.1, hinv.2.2.1, hinv.2.2.2.2⟩
    | error e =>
      rw [h1] at h
      cases e with
      | eof =>
        dsimp only at h
        have hinv := nextSampleOnce_ok_inv (resetReader l) s l' h
        exact ⟨hinv.1, hinv.2.1, hinv.2.2.1, hinv.2.2.2.2⟩
      | headerErr => cases h
      | frameErr => cases h

/-- C6, witness: the state-change characterization instantiated at the
first pull on `tsLooper`. -/
theorem nextSample_state_change_witness :
    nextSample true tsLooper = Except.ok ({ data := [10], duration := 33333333 }, tsL1) ∧
    (tsL1.buffer = tsLooper.buffer ∧ tsL1.frameDuration = tsLooper.frameDuration ∧
     tsL1.isVp9Encoding = tsLooper.isVp9Encoding ∧
     ∃ j f, tsLooper.buffer.frames.get? j = some f ∧ tsL1.reader = some (j + 1) ∧
       ({ data := [10], duration := 33333333 } : MediaSample).data = f.payload ∧
       tsL1.lastTimestamp = f.timestamp) :=
  have hEq : nextSample true tsLooper =
      Except.ok ({ data := [10], duration := 33333333 }, tsL1) := by
    rw [nextSample_true_eq]; decide
  ⟨hEq, nextSample_state_change true tsLooper _ tsL1 hEq⟩

/-- C5, counterexample: for the zero-frame clip with a well-formed header,
opening the reader (`ivfreader.NewWith`) SUCCEEDS — it does not fail with
the clip-format (malformed header) error, contrary to the claim that a
zero-frame clip is an error at open time. -/
theorem c5_counterexample :
    zeroClip.frames = [] ∧
    openReader zeroLooper =
      Except.ok { zeroLooper with reader := some 0, ivfTimebase := (1, 30) } ∧
    ∀ e, openReader zeroLooper ≠ Except.error e := by
  refine ⟨rfl, by decide, fun e h => ?_⟩
  rw [show openReader zeroLooper =
      Except.ok { zeroLooper with reader := some 0, ivfTimebase := (1, 30) } from by decide]
    at h
  cases h

/-- C5, amended: a zero-frame clip with a well-formed header is NOT an
open-time error — `open()` succeeds — but it is also not an infinite-loop
hazard: every pull, from any reader state over such a clip, performs at
most the single reopen attempt and returns the end-of-stream error; no
(empty or otherwise) sample is ever returned. -/
theorem zero_clip_pull_eof (l : VPVideoLooper)
    (hv : l.buffer.headerValid = true) (h0 : l.buffer.frames = [])
    (hg : l.buffer.trailingGarbage = false) :
    openReader (resetReader l) = Except.ok { l with
      reader := some 0
      ivfTimebase := (l.buffer.timebaseNumerator, l.buffer.timebaseDenominator) } ∧
    nextSample true l = Except.error LoopErr.eof := by
  have hempty : ∀ m : VPVideoLooper, m.buffer = l.buffer →
      nextSampleOnce m = Except.error LoopErr.eof := by
    intro m hbm
    rw [nextSampleOnce_eq]
    cases hr : m.reader with
    | some j =>
      rw [openReader_some m j hr]
      dsimp only
      simp [parseNextFrame, hbm, h0, hg]
    | none =>
      rw [openReader_none m hr (by rw [hbm]; exact hv)]
      dsimp only
      simp [parseNextFrame, hbm, h0, hg]
  constructor
  · exact openReader_none (resetReader l) rfl hv
  · rw [nextSample_true_eq, hempty l rfl]
    exact hempty (resetReader l) rfl

/-- C5, witness: the amended behavior instantiated at the fresh looper
over the zero-frame clip. -/
theorem zero_clip_pull_eof_witness :
    openReader (resetReader zeroLooper) = Except.ok { zeroLooper with
      reader := some 0
      ivfTimebase := (zeroLooper.buffer.timebaseNumerator,
                      zeroLooper.buffer.timebaseDenominator) } ∧
    nextSample true zeroLooper = Except.error LoopErr.eof :=
  zero_clip_pull_eof zeroLooper rfl rfl rfl

theorem LoopsAt_lt (clip : IVFClip) (fd p : Nat) (l : VPVideoLooper)
    (hk : 1 ≤ clip.frames.length) (h : LoopsAt clip fd p l) :
    p < clip.frames.length := by
  rcases h.2.2 with ⟨_, hp⟩ | ⟨j, _, _, hp⟩
  · omega
  · rw [hp]; exact Nat.mod_lt _ (by omega)

/-- One pull from any state in the looping invariant at position `p` of a
well-formed nonempty clip succeeds, returns frame `p`, and re-establishes
the invariant at position `(p + 1) % k`. -/
theorem NextSample_loop_step (clip : IVFClip) (fd : Nat)
    (hv : clip.headerValid = true) (hg : clip.trailingGarbage = false)
    (hk : 1 ≤ clip.frames.length) (p : Nat) (l : VPVideoLooper)
    (hgood : LoopsAt clip fd p l) :
    ∃ f l', clip.frames.get? p = some f ∧
      NextSample l = Except.ok ({ data := f.payload, duration := fd }, l') ∧
      LoopsAt clip fd ((p + 1) % clip.frames.length) l' ∧
      l'.lastTimestamp = f.timestamp := by
  have hp_lt : p < clip.frames.length := LoopsAt_lt clip fd p l hk hgood
  obtain ⟨hb, hfd, hcase⟩ := hgood
  subst hb
  subst hfd
  obtain ⟨f, hf⟩ : ∃ f, l.buffer.frames.get? p = some f := by
    cases hq : l.buffer.frames.get? p with
    | some f => exact ⟨f, rfl⟩
    | none => exact absurd (List.get?_eq_none.mp hq) (by omega)
  rcases hcase with ⟨hr, hp0⟩ | ⟨j, hr, hjk, hpj⟩
  · subst hp0
    have h1 := nextSampleOnce_none l f hr hv hf
    refine ⟨f, { l with reader := some 1
                        ivfTimebase := (l.buffer.timebaseNumerator,
                                        l.buffer.timebaseDenominator)
                        lastTimestamp := f.timestamp }, hf, ?_, ?_, rfl⟩
    · rw [NextSample, nextSample_true_eq, h1]
    · exact ⟨rfl, rfl, Or.inr ⟨1, rfl, hk, rfl⟩⟩
  · rcases Nat.lt_or_ge j l.buffer.frames.length with hjlt | hjge
    · have hpj' : p = j := by rw [hpj]; exact Nat.mod_eq_of_lt hjlt
      have h1 := nextSampleOnce_pos l j f hr (by rw [← hpj']; exact hf)
      refine ⟨f, { l with reader := some (j + 1), lastTimestamp := f.timestamp },
        hf, ?_, ?_, rfl⟩
      · rw [NextSample, nextSample_true_eq, h1]
      · refine ⟨rfl, rfl, Or.inr ⟨j + 1, rfl, by omega, ?_⟩⟩
        rw [hpj']
    · have hjeq : j = l.buffer.frames.length := by omega
      subst hjeq
      have hp0 : p = 0 := by rw [hpj, Nat.mod_self]
      subst hp0
      have heof : nextSampleOnce l = Except.error LoopErr.eof := by
        apply nextSampleOnce_eof l l (openReader_some l _ hr)
        · rw [hr]
          exact List.get?_eq_none.mpr (le_refl _)
        · exact hg
      have h2 := nextSampleOnce_none (resetReader l) f rfl hv hf
      refine ⟨f, { l with reader := some 1
                          ivfTimebase := (l.buffer.timebaseNumerator,
                                          l.buffer.timebaseDenominator)
                          lastTimestamp := f.timestamp }, hf, ?_, ?_, rfl⟩
      · rw [NextSample, nextSample_true_eq, heof]
        dsimp only
        rw [h2]
        rfl
      · exact ⟨rfl, rfl, Or.inr ⟨1, rfl, hk, rfl⟩⟩

/-- Iterated pulls from any invariant state: the `n`-th pull (0-indexed)
returns frame `(p + n) % k` with the fixed duration. -/
theorem pullResult_loop (clip : IVFClip) (fd : Nat)
    (hv : clip.headerValid = true) (hg : clip.trailingGarbage = false)
    (hk : 1 ≤ clip.frames.length) :
    ∀ (n p : Nat) (l : VPVideoLooper), LoopsAt clip fd p l →
      ∃ f l', clip.frames.get? ((p + n) % clip.frames.length) = some f ∧
        pullResult n l = Except.ok ({ data := f.payload, duration := fd }, l') := by
  intro n
  induction n with
  | zero =>
    intro p l hgood
    obtain ⟨f, l', hf, hns, _, _⟩ := NextSample_loop_step clip fd hv hg hk p l hgood
    refine ⟨f, l', ?_, hns⟩
    rw [Nat.add_zero, Nat.mod_eq_of_lt (LoopsAt_lt clip fd p l hk hgood)]
    exact hf
  | succ n ih =>
    intro p l hgood
    obtain ⟨f, l', hf, hns, hgood', _⟩ := NextSample_loop_step clip fd hv hg hk p l hgood
    obtain ⟨f2, l2, hf2, hpr⟩ := ih ((p + 1) % clip.frames.length) l' hgood'
    refine ⟨f2, l2, ?_, ?_⟩
    · rw [Nat.mod_add_mod] at hf2
      rw [show p + (n + 1) = p + 1 + n by omega]
      exact hf2
    · rw [pullResult, hns]
      exact hpr

/-- C1: for every well-formed clip with `k ≥ 1` parseable frames and any
configured frame rate, the `i`-th pull (counting from 0) on a fresh looper
succeeds — never surfacing end-of-stream — and returns the payload of
frame `i mod k` together with the fixed output duration, transparently
reopening the clip whenever the recording is exhausted. -/
theorem looper_pull_mod (clip : IVFClip) (fps : Nat) (isVp9 : Bool) (n : Nat)
    (hv : clip.headerValid = true) (hg : clip.trailingGarbage = false)
    (hk : 1 ≤ clip.frames.length) :
    ∃ f l', clip.frames.get? (n % clip.frames.length) = some f ∧
      pullResult n (NewVPVideoLooper clip fps isVp9) =
        Except.ok ({ data := f.payload, duration := 1000000000 / fps }, l') := by
  have h := pullResult_loop clip (1000000000 / fps) hv hg hk n 0
    (NewVPVideoLooper clip fps isVp9) ⟨rfl, rfl, Or.inl ⟨rfl, rfl⟩⟩
  rw [Nat.zero_add] at h
  exact h

/-- C1, witness: the fifth pull (0-indexed) on the fresh two-frame looper
returns frame `5 mod 2 = 1`. -/
theorem looper_pull_mod_witness :
    tsClip.headerValid = true ∧ tsClip.trailingGarbage = false ∧
    1 ≤ tsClip.frames.length ∧
    ∃ f l', tsClip.frames.get? (5 % tsClip.frames.length) = some f ∧
      pullResult 5 (NewVPVideoLooper tsClip 30 false) =
        Except.ok ({ data := f.payload, duration := 1000000000 / 30 }, l') :=
  ⟨rfl, rfl, by decide, looper_pull_mod tsClip 30 false 5 rfl rfl (by decide)⟩
